import Mathlib

/-!
Verification of the MQTT connection-manager composable (`useMqtt`) of this
repository.  The composable owns one broker session: reactive refs
`client`, `isConnected`, `isConnecting`, `error`, `messages`,
`subscriptions`, `currentBrokerUrl`, `currentClientOptions`,
`connectionTimeout`, and the operations `connect`, `disconnect`,
`subscribe`, `unsubscribe`, `publish` plus the event handlers installed on
the client (connect / error / close / reconnect / offline / message) and
the 15-second connect-timeout callback.

The embedding below translates each of those operations into a pure
function on an explicit state record.  JavaScript runtime builtins that the
code calls (`JSON.parse`, `Math.random`, `Date`) are modelled as explicit
parameters; `JSON.stringify` and `String(...)` are implemented over a small
JavaScript-value type since the claims evaluate them on concrete values.
Reachability of session states is captured by an event alphabet, a step
function dispatching to the translated handlers, and an enabledness
predicate encoding when the environment can deliver each event.
-/

namespace GpsMqtt

/-- JavaScript values as far as this component manipulates them: strings,
numbers (the payloads in the claims are integral, so `Int` suffices),
booleans, `null`, arrays and plain objects. -/
inductive Json where
  | str (s : String)
  | num (n : Int)
  | bool (b : Bool)
  | null
  | arr (elems : List Json)
  | obj (fields : List (String × Json))
deriving Repr

/-- Escaping of one character inside a JSON string literal, as
`JSON.stringify` performs it for the characters that can appear here. -/
def escapeJsonChar (c : Char) : String :=
  if c = '"' then "\\\""
  else if c = '\\' then "\\\\"
  else if c = '\n' then "\\n"
  else if c = '\r' then "\\r"
  else if c = '\t' then "\\t"
  else String.singleton c

/-- JSON string literal with escapes, as produced by `JSON.stringify`. -/
def quoteJson (s : String) : String :=
  "\"" ++ String.join (s.toList.map escapeJsonChar) ++ "\""

mutual
/-- `JSON.stringify` on the modelled JavaScript values. -/
def jsonStringify : Json → String
  | .str s => quoteJson s
  | .num n => toString n
  | .bool b => if b then "true" else "false"
  | .null => "null"
  | .arr es => "[" ++ stringifyElems es ++ "]"
  | .obj fs => "\x7b" ++ stringifyFields fs ++ "\x7d"

/-- Comma-separated stringification of array elements. -/
def stringifyElems : List Json → String
  | [] => ""
  | [e] => jsonStringify e
  | e :: es => jsonStringify e ++ "," ++ stringifyElems es

/-- Comma-separated `"key":value` stringification of object fields. -/
def stringifyFields : List (String × Json) → String
  | [] => ""
  | [(k, v)] => quoteJson k ++ ":" ++ jsonStringify v
  | (k, v) :: fs => quoteJson k ++ ":" ++ jsonStringify v ++ "," ++ stringifyFields fs
end

/-- JavaScript `typeof`: note `typeof null`, arrays and objects are all
`"object"`. -/
def jsTypeof : Json → String
  | .str _ => "string"
  | .num _ => "number"
  | .bool _ => "boolean"
  | .null => "object"
  | .arr _ => "object"
  | .obj _ => "object"

mutual
/-- JavaScript `String(v)` conversion. -/
def jsString : Json → String
  | .str s => s
  | .num n => toString n
  | .bool b => if b then "true" else "false"
  | .null => "null"
  | .arr es => jsStringElems es
  | .obj _ => "[object Object]"

/-- `Array.prototype.toString`: elements joined with commas, `null`
rendered empty inside an array. -/
def jsStringElems : List Json → String
  | [] => ""
  | [Json.null] => ""
  | [e] => jsString e
  | Json.null :: es => "," ++ jsStringElems es
  | e :: es => jsString e ++ "," ++ jsStringElems es
end

/-- Client options object handed to `useMqtt`/`connect`; every key is
optional, `none` meaning the key is absent from the JavaScript object. -/
structure ClientOptions where
  clientId : Option String := none
  username : Option String := none
  password : Option String := none
  clean : Option Bool := none
  reconnectPeriod : Option Nat := none
  connectTimeout : Option Nat := none
deriving Repr, DecidableEq

/-- JavaScript object spread `( ...a, ...b )`: keys of `b` override keys
of `a`. -/
def mergeOptions (a b : ClientOptions) : ClientOptions where
  clientId := b.clientId.orElse fun _ => a.clientId
  username := b.username.orElse fun _ => a.username
  password := b.password.orElse fun _ => a.password
  clean := b.clean.orElse fun _ => a.clean
  reconnectPeriod := b.reconnectPeriod.orElse fun _ => a.reconnectPeriod
  connectTimeout := b.connectTimeout.orElse fun _ => a.connectTimeout

/-- Options actually passed to `mqtt.connect` once the defaults are
filled in. -/
structure ResolvedOptions where
  clientId : String
  username : Option String
  password : Option String
  clean : Bool
  reconnectPeriod : Nat
  connectTimeout : Nat
deriving Repr, DecidableEq

/-- Client id generated when the caller supplied none:
`vue-mqtt-` followed by eight pseudo-random hex digits
(`Math.random().toString(16).substr(2, 8)`, modelled as the parameter). -/
def genClientId (randHex : String) : String :=
  "vue-mqtt-" ++ randHex

/-- `defaultOptions` of `connect`: the spread
`( clientId: generated, clean: true, reconnectPeriod: 1000,
connectTimeout: 10000, ...currentClientOptions )`, so stored options
override each default. -/
def resolveOptions (randHex : String) (stored : ClientOptions) : ResolvedOptions where
  clientId := stored.clientId.getD (genClientId randHex)
  username := stored.username
  password := stored.password
  clean := stored.clean.getD true
  reconnectPeriod := stored.reconnectPeriod.getD 1000
  connectTimeout := stored.connectTimeout.getD (10 * 1000)

/-- Message record unshifted onto the log by the `message` handler. -/
structure Message where
  topic : String
  data : Json
  raw : String
  timestamp : String
deriving Repr

/-- The composable's reactive state.  `clientExists` models
`client.value !== null`; `timerArmed` models that the 15-second
`setTimeout` is pending; `pendingSubs`/`pendingUnsubs` track issued
subscribe/unsubscribe requests whose broker acknowledgment callback has
not yet run; `attempts`/`lastAttempt` record the calls made to
`mqtt.connect` so that theorems can speak about connection attempts. -/
structure MqttState where
  clientExists : Bool
  isConnected : Bool
  isConnecting : Bool
  error : Option String
  messages : List Message
  subscriptions : List String
  currentBrokerUrl : String
  currentClientOptions : ClientOptions
  timerArmed : Bool
  pendingSubs : List String
  pendingUnsubs : List String
  attempts : Nat
  lastAttempt : Option (String × ResolvedOptions)
deriving Repr

/-- Initial refs of `useMqtt()` called with no options. -/
def initState : MqttState where
  clientExists := false
  isConnected := false
  isConnecting := false
  error := none
  messages := []
  subscriptions := []
  currentBrokerUrl := "ws://localhost:8083/mqtt"
  currentClientOptions := {}
  timerArmed := false
  pendingSubs := []
  pendingUnsubs := []
  attempts := 0
  lastAttempt := none

/-- Truthiness of the optional `url` argument: `null` and the empty
string are falsy in `if (url)`. -/
def jsTruthyStr : Option String → Bool
  | none => false
  | some s => s ≠ ""

/-- Error message of the 15-second connect timeout. -/
def connectionTimeoutMessage : String :=
  "Connection timeout: Unable to connect to broker. Check URL, port, and network connectivity."

/-- Error message assigned by the `offline` handler. -/
def offlineMessage : String :=
  "Connection went offline"

/-- Opening block of `connect` past the guard: store the url when truthy
and merge supplied options over the stored ones. -/
def storeArgs (s : MqttState) (url : Option String) (opts : Option ClientOptions) : MqttState :=
  let s1 := if jsTruthyStr url then
      { s with currentBrokerUrl := url.getD s.currentBrokerUrl } else s
  match opts with
  | some o => { s1 with currentClientOptions := mergeOptions s1.currentClientOptions o }
  | none => s1

/-- `connect(url, opts)`.  Early return when connecting or connected;
otherwise store the truthy url, merge supplied options over the stored
ones, set connecting, clear the error, re-arm the 15-second timer, and
call `mqtt.connect` with the defaults filled in (recorded in
`lastAttempt`/`attempts`).  `createError = some e` models `mqtt.connect`
throwing, handled by the `catch` block. -/
def connect (s : MqttState) (url : Option String) (opts : Option ClientOptions)
    (randHex : String) (createError : Option String) : MqttState :=
  if s.isConnecting || s.isConnected then s
  else
    let s2 := storeArgs s url opts
    let s3 := { s2 with isConnecting := true, error := none, timerArmed := true }
    match createError with
    | some e => { s3 with error := some e, isConnecting := false }
    | none =>
        { s3 with clientExists := true,
                  attempts := s3.attempts + 1,
                  lastAttempt :=
                    some (s3.currentBrokerUrl, resolveOptions randHex s3.currentClientOptions) }

/-- Handler of the client's `connect` event (the broker's connect
acknowledgment). -/
def onConnect (s : MqttState) : MqttState :=
  { s with isConnected := true, isConnecting := false, error := none, timerArmed := false }

/-- Handler of the client's `error` event. -/
def onError (s : MqttState) (msg : String) : MqttState :=
  { s with error := some msg, isConnecting := false, timerArmed := false }

/-- Handler of the client's `close` event. -/
def onClose (s : MqttState) : MqttState :=
  { s with isConnected := false, isConnecting := false, timerArmed := false }

/-- Handler of the client's `reconnect` event. -/
def onReconnect (s : MqttState) : MqttState :=
  { s with isConnecting := true }

/-- Handler of the client's `offline` event. -/
def onOffline (s : MqttState) : MqttState :=
  { s with isConnected := false, isConnecting := false, timerArmed := false,
           error := some offlineMessage }

/-- Body of the 15-second `setTimeout` callback: if still connecting and
not connected, stop connecting, record the timeout error, and end and
clear the half-open client; otherwise do nothing. -/
def onTimeout (s : MqttState) : MqttState :=
  if s.isConnecting && !s.isConnected then
    { s with isConnecting := false, error := some connectionTimeoutMessage,
             clientExists := false }
  else s

/-- Handler of the client's `message` event.  The payload is
`message.toString()`; `parsed` is the result of the `JSON.parse` builtin
on it (`some` on success, `none` when it threw); `now` is
`new Date().toISOString()`.  A record is unshifted onto the log. -/
def onMessage (s : MqttState) (topic payload : String) (parsed : Option Json)
    (now : String) : MqttState :=
  match parsed with
  | some d => { s with messages := ⟨topic, d, payload, now⟩ :: s.messages }
  | none => { s with messages := ⟨topic, Json.str payload, payload, now⟩ :: s.messages }

/-- `disconnect()`: always clear the pending timeout; then, only if the
client handle exists, unsubscribe every topic, clear the subscription
set, end and clear the client, reset both flags, and clear the message
log. -/
def disconnect (s : MqttState) : MqttState :=
  let s1 := { s with timerArmed := false }
  if s1.clientExists then
    { s1 with subscriptions := [], clientExists := false, isConnected := false,
              isConnecting := false, messages := [] }
  else s1

/-- Subscription options; only `qos` is recognized by the defaults. -/
structure SubOptions where
  qos : Option Nat := none
deriving Repr, DecidableEq

/-- `( qos: 0, ...options )` of `subscribe`. -/
def resolveSubQos (o : SubOptions) : Nat :=
  o.qos.getD 0

/-- Publish options; `qos` and `retain` are the recognized keys. -/
structure PubOptions where
  qos : Option Nat := none
  retain : Option Bool := none
deriving Repr, DecidableEq

/-- Options actually passed to `client.publish`. -/
structure ResolvedPubOptions where
  qos : Nat
  retain : Bool
deriving Repr, DecidableEq

/-- `( qos: 0, retain: false, ...options )` of `publish`. -/
def resolvePubOptions (o : PubOptions) : ResolvedPubOptions where
  qos := o.qos.getD 0
  retain := o.retain.getD false

/-- Observable effect of a `subscribe` call: either the
`console.warn` early return, or the list of subscribe requests issued to
the client together with the resolved QoS. -/
inductive SubOutcome where
  | warnedNotConnected
  | requested (topics : List String) (qos : Nat)
deriving Repr, DecidableEq

/-- `subscribe(topicOrTopics, options)`: warn and return unless a client
exists and the session is connected; otherwise issue one subscribe
request per topic not already in the subscription set (a single topic is
the one-element list).  The set itself is only mutated by the
acknowledgment callback, `onSubAck`. -/
def subscribe (s : MqttState) (topics : List String) (options : SubOptions) : SubOutcome :=
  if !s.clientExists || !s.isConnected then .warnedNotConnected
  else .requested (topics.filter fun t => !s.subscriptions.contains t) (resolveSubQos options)

/-- `Set.add`: append the topic only when absent, keeping insertion
order. -/
def setAdd (l : List String) (t : String) : List String :=
  if t ∈ l then l else l ++ [t]

/-- Callback of `client.subscribe`: on error the topic is only logged;
on success it is added to the subscription set. -/
def onSubAck (s : MqttState) (t : String) (ok : Bool) : MqttState :=
  if ok then { s with subscriptions := setAdd s.subscriptions t } else s

/-- Observable effect of an `unsubscribe` call. -/
inductive UnsubOutcome where
  | ignoredNotConnected
  | requested (topics : List String)
deriving Repr, DecidableEq

/-- `unsubscribe(topicOrTopics)`: silently return unless a client exists
and the session is connected; otherwise issue one unsubscribe request per
topic currently in the subscription set. -/
def unsubscribe (s : MqttState) (topics : List String) : UnsubOutcome :=
  if !s.clientExists || !s.isConnected then .ignoredNotConnected
  else .requested (topics.filter fun t => s.subscriptions.contains t)

/-- Callback of `client.unsubscribe`: on error the topic is only logged
and remains; on success `Set.delete` removes it. -/
def onUnsubAck (s : MqttState) (t : String) (ok : Bool) : MqttState :=
  if ok then { s with subscriptions := s.subscriptions.erase t } else s

/-- Observable effect of a `publish` call: either the `console.warn`
early return, or the payload handed to `client.publish` with the resolved
options. -/
inductive PublishOutcome where
  | warnedNotConnected
  | sent (topic payload : String) (options : ResolvedPubOptions)
deriving Repr, DecidableEq

/-- `publish(topic, message, options)`: warn and return unless a client
exists and the session is connected; otherwise send
`typeof message === 'object' ? JSON.stringify(message) : String(message)`
with defaults QoS 0 and retain false.  The state is unchanged. -/
def publish (s : MqttState) (topic : String) (message : Json)
    (options : PubOptions) : PublishOutcome :=
  if !s.clientExists || !s.isConnected then .warnedNotConnected
  else .sent topic
    (if jsTypeof message = "object" then jsonStringify message else jsString message)
    (resolvePubOptions options)

/-- Events that can act on the session: the five user-invocable
operations, the user's clear-messages action, the client events delivered
by the mqtt library, the timeout firing, and the broker acknowledgments of
pending subscribe/unsubscribe requests. -/
inductive Event where
  | evConnect (url : Option String) (opts : Option ClientOptions)
      (randHex : String) (createError : Option String)
  | evDisconnect
  | evSubscribe (topics : List String) (options : SubOptions)
  | evUnsubscribe (topics : List String)
  | evPublish (topic : String) (message : Json) (options : PubOptions)
  | evClearMessages
  | evConnack
  | evError (msg : String)
  | evClose
  | evReconnect
  | evOffline
  | evTimeout
  | evMessage (topic payload : String) (parsed : Option Json) (now : String)
  | evSubAck (t : String) (ok : Bool)
  | evUnsubAck (t : String) (ok : Bool)

/-- Enabledness: user calls can always happen; client events require a
live client handle (the handlers are installed on it); the timeout can
only fire while the `setTimeout` is pending; an acknowledgment requires a
live client and a matching pending request. -/
def canFire (s : MqttState) : Event → Bool
  | .evConnect _ _ _ _ => true
  | .evDisconnect => true
  | .evSubscribe _ _ => true
  | .evUnsubscribe _ => true
  | .evPublish _ _ _ => true
  | .evClearMessages => true
  | .evConnack => s.clientExists
  | .evError _ => s.clientExists
  | .evClose => s.clientExists
  | .evReconnect => s.clientExists
  | .evOffline => s.clientExists
  | .evTimeout => s.timerArmed
  | .evMessage _ _ _ _ => s.clientExists
  | .evSubAck t _ => s.clientExists && s.pendingSubs.contains t
  | .evUnsubAck t _ => s.clientExists && s.pendingUnsubs.contains t

/-- State effect of each event.  `subscribe`/`unsubscribe`/`publish`
leave the reactive state untouched apart from registering the pending
acknowledgment callbacks of the requests they issue; the timeout firing
consumes the pending timer and then runs the handler body. -/
def step (s : MqttState) : Event → MqttState
  | .evConnect url opts randHex createError => connect s url opts randHex createError
  | .evDisconnect => disconnect s
  | .evSubscribe topics options =>
      match subscribe s topics options with
      | .warnedNotConnected => s
      | .requested ts _ => { s with pendingSubs := s.pendingSubs ++ ts }
  | .evUnsubscribe topics =>
      match unsubscribe s topics with
      | .ignoredNotConnected => s
      | .requested ts => { s with pendingUnsubs := s.pendingUnsubs ++ ts }
  | .evPublish _ _ _ => s
  | .evClearMessages => { s with messages := [] }
  | .evConnack => onConnect s
  | .evError msg => onError s msg
  | .evClose => onClose s
  | .evReconnect => onReconnect s
  | .evOffline => onOffline s
  | .evTimeout => onTimeout { s with timerArmed := false }
  | .evMessage topic payload parsed now => onMessage s topic payload parsed now
  | .evSubAck t ok => { onSubAck s t ok with pendingSubs := s.pendingSubs.erase t }
  | .evUnsubAck t ok => { onUnsubAck s t ok with pendingUnsubs := s.pendingUnsubs.erase t }

/-- Session states reachable from the freshly created composable through
enabled events. -/
inductive Reachable : MqttState → Prop where
  | init : Reachable initState
  | next {s : MqttState} {e : Event} : Reachable s → canFire s e = true →
      Reachable (step s e)

/-- A trace is admissible from `s` when every event is enabled in turn. -/
def traceOK (s : MqttState) : List Event → Bool
  | [] => true
  | e :: es => canFire s e && traceOK (step s e) es

theorem reachable_of_traceOK {s : MqttState} (hs : Reachable s) :
    ∀ tr : List Event, traceOK s tr = true → Reachable (tr.foldl step s) := by
  intro tr
  induction tr generalizing s with
  | nil => intro _; exact hs
  | cons e es ih =>
      intro h
      rw [traceOK, Bool.and_eq_true] at h
      exact ih (hs.next h.1) h.2

section HelperLemmas

variable (s : MqttState) (url : Option String) (opts : Option ClientOptions)
variable (t : String) (ok : Bool)

@[simp] theorem storeArgs_clientExists : (storeArgs s url opts).clientExists = s.clientExists := by
  unfold storeArgs; cases opts <;> dsimp only [] <;> split <;> rfl

@[simp] theorem storeArgs_isConnected : (storeArgs s url opts).isConnected = s.isConnected := by
  unfold storeArgs; cases opts <;> dsimp only [] <;> split <;> rfl

@[simp] theorem storeArgs_isConnecting : (storeArgs s url opts).isConnecting = s.isConnecting := by
  unfold storeArgs; cases opts <;> dsimp only [] <;> split <;> rfl

@[simp] theorem storeArgs_messages : (storeArgs s url opts).messages = s.messages := by
  unfold storeArgs; cases opts <;> dsimp only [] <;> split <;> rfl

@[simp] theorem storeArgs_subscriptions : (storeArgs s url opts).subscriptions = s.subscriptions := by
  unfold storeArgs; cases opts <;> dsimp only [] <;> split <;> rfl

@[simp] theorem storeArgs_attempts : (storeArgs s url opts).attempts = s.attempts := by
  unfold storeArgs; cases opts <;> dsimp only [] <;> split <;> rfl

@[simp] theorem storeArgs_lastAttempt : (storeArgs s url opts).lastAttempt = s.lastAttempt := by
  unfold storeArgs; cases opts <;> dsimp only [] <;> split <;> rfl

@[simp] theorem storeArgs_pendingSubs : (storeArgs s url opts).pendingSubs = s.pendingSubs := by
  unfold storeArgs; cases opts <;> dsimp only [] <;> split <;> rfl

@[simp] theorem storeArgs_pendingUnsubs : (storeArgs s url opts).pendingUnsubs = s.pendingUnsubs := by
  unfold storeArgs; cases opts <;> dsimp only [] <;> split <;> rfl

@[simp] theorem onSubAck_clientExists : (onSubAck s t ok).clientExists = s.clientExists := by
  unfold onSubAck; split <;> rfl

@[simp] theorem onSubAck_isConnected : (onSubAck s t ok).isConnected = s.isConnected := by
  unfold onSubAck; split <;> rfl

@[simp] theorem onSubAck_isConnecting : (onSubAck s t ok).isConnecting = s.isConnecting := by
  unfold onSubAck; split <;> rfl

@[simp] theorem onUnsubAck_clientExists : (onUnsubAck s t ok).clientExists = s.clientExists := by
  unfold onUnsubAck; split <;> rfl

@[simp] theorem onUnsubAck_isConnected : (onUnsubAck s t ok).isConnected = s.isConnected := by
  unfold onUnsubAck; split <;> rfl

@[simp] theorem onUnsubAck_isConnecting : (onUnsubAck s t ok).isConnecting = s.isConnecting := by
  unfold onUnsubAck; split <;> rfl

end HelperLemmas

/-- Invariant of reachable states: while no client handle exists the
composable can be neither connected nor connecting (both flags were reset
by whatever cleared the handle, and only `connect` sets them together with
a fresh handle). -/
theorem no_client_no_flags {s : MqttState} (h : Reachable s) :
    s.clientExists = false → s.isConnected = false ∧ s.isConnecting = false := by
  induction h with
  | init => intro _; exact ⟨rfl, rfl⟩
  | @next s e hr hc ih =>
      cases e with
      | evConnect url opts randHex createError =>
          cases hguard : (s.isConnecting || s.isConnected) with
          | true =>
              have hstep : step s (.evConnect url opts randHex createError) = s := by
                simp [step, connect, hguard]
              rw [hstep]; exact ih
          | false =>
              obtain ⟨hcg, hcd⟩ := Bool.or_eq_false_iff.mp hguard
              cases createError <;> simp [step, connect, hguard, hcg, hcd]
      | evDisconnect =>
          simp only [step, disconnect]
          split
          · exact fun _ => ⟨rfl, rfl⟩
          · exact ih
      | evSubscribe topics options =>
          simp only [step]
          split <;> simpa using ih
      | evUnsubscribe topics =>
          simp only [step]
          split <;> simpa using ih
      | evPublish topic message options => exact ih
      | evClearMessages => simpa using ih
      | evConnack =>
          simp only [canFire] at hc
          simp [step, onConnect, hc]
      | evError msg =>
          simp only [canFire] at hc
          simp [step, onError, hc]
      | evClose =>
          simp only [canFire] at hc
          simp [step, onClose, hc]
      | evReconnect =>
          simp only [canFire] at hc
          simp [step, onReconnect, hc]
      | evOffline =>
          simp only [canFire] at hc
          simp [step, onOffline, hc]
      | evTimeout =>
          simp only [step, onTimeout]
          split
          · rename_i hguard
            simp only [Bool.and_eq_true, Bool.not_eq_true'] at hguard
            intro _
            exact ⟨hguard.2, rfl⟩
          · simpa using ih
      | evMessage topic payload parsed now =>
          cases parsed <;> simpa [step, onMessage] using ih
      | evSubAck t ok =>
          simp only [canFire, Bool.and_eq_true] at hc
          simp [step, onSubAck_clientExists, hc.1]
      | evUnsubAck t ok =>
          simp only [canFire, Bool.and_eq_true] at hc
          simp [step, onUnsubAck_clientExists, hc.1]

/-- `Set.add` gives back a set in which the topic occurs exactly once,
provided it occurred at most once before. -/
theorem count_setAdd (l : List String) (t : String) (h : l.count t ≤ 1) :
    (setAdd l t).count t = 1 := by
  unfold setAdd
  split
  · rename_i hmem
    have h1 : 0 < l.count t := List.count_pos_iff.mpr hmem
    omega
  · rename_i hmem
    rw [List.count_append, List.count_eq_zero.mpr hmem]
    simp

@[simp] theorem storeArgs_currentBrokerUrl_some (s : MqttState) (u : String)
    (opts : Option ClientOptions) (hu : u ≠ "") :
    (storeArgs s (some u) opts).currentBrokerUrl = u := by
  cases opts <;> simp [storeArgs, jsTruthyStr, hu]

@[simp] theorem storeArgs_currentClientOptions_some (s : MqttState) (url : Option String)
    (o : ClientOptions) :
    (storeArgs s url (some o)).currentClientOptions =
      mergeOptions s.currentClientOptions o := by
  unfold storeArgs
  dsimp only []
  split <;> rfl

/-- Sample reachable state in the middle of a first connection attempt:
`connect` stored the url, armed the 15-second timer and created the
client, and no event has arrived yet. -/
def connectingState : MqttState :=
  step initState (.evConnect (some "ws://202.51.82.87:9001") none "0a1b2c3d" none)

/-- Sample reachable state of an established session: the connect
acknowledgment arrived for `connectingState`. -/
def connectedState : MqttState :=
  step connectingState .evConnack

/-- C2: calling `connect` while the session is already connecting or
connected returns without touching any field of the state — flags, error,
stored url and options, message log, subscription set, client handle,
pending timer, pending acknowledgments — and neither `attempts` nor
`lastAttempt` changes, so no second connection attempt is created. -/
theorem connect_noop_when_busy (s : MqttState) (url : Option String)
    (opts : Option ClientOptions) (randHex : String) (createError : Option String)
    (h : s.isConnecting = true ∨ s.isConnected = true) :
    connect s url opts randHex createError = s := by
  unfold connect
  rcases h with h | h <;> simp [h]

/-- Witness for C2: a second `connect` on the established sample session
changes nothing. -/
theorem connect_noop_when_busy_witness :
    connect connectedState (some "ws://broker.hivemq.com:8000/mqtt")
        (some { clientId := some "second" }) "ffff0000" none = connectedState :=
  connect_noop_when_busy _ _ _ _ _ (Or.inr (by decide))

/-- C3: when the 15-second timer fires while the session is still
connecting and not yet connected, the handler leaves it not-connecting and
not-connected, records the connection-timeout error, and ends and clears
the half-open client handle. -/
theorem timeout_closes_half_open (s : MqttState)
    (h1 : s.isConnecting = true) (h2 : s.isConnected = false) :
    (onTimeout s).isConnecting = false ∧ (onTimeout s).isConnected = false ∧
    (onTimeout s).error = some connectionTimeoutMessage ∧
    (onTimeout s).clientExists = false := by
  simp [onTimeout, h1, h2]

/-- Witness for C3 at the sample connecting state. -/
theorem timeout_closes_half_open_witness :
    (onTimeout connectingState).isConnecting = false ∧
    (onTimeout connectingState).isConnected = false ∧
    (onTimeout connectingState).error = some connectionTimeoutMessage ∧
    (onTimeout connectingState).clientExists = false :=
  timeout_closes_half_open connectingState (by decide) (by decide)

/-- C10: a stale firing of the connect timer — while the session is not
connecting, or is already connected — leaves the whole state unchanged:
flags, error, client handle, message log and subscription set included. -/
theorem timeout_stale_noop (s : MqttState)
    (h : s.isConnecting = false ∨ s.isConnected = true) :
    onTimeout s = s := by
  unfold onTimeout
  rcases h with h | h <;> simp [h]

/-- Witness for C10: a stale timer firing on the established sample
session changes nothing. -/
theorem timeout_stale_noop_witness : onTimeout connectedState = connectedState :=
  timeout_stale_noop connectedState (Or.inr (by decide))

/-- Event trace leading to a state that `disconnect` fails to clear: a
session connects and receives a message, the transport closes, the user
reconnects, and the 15-second timeout then clears the half-open client
handle while the old message log is still populated. -/
def cexTrace : List Event :=
  [ .evConnect (some "ws://202.51.82.87:9001") none "1f2e3d4c" none,
    .evConnack,
    .evMessage "gps/location" "hello" none "2024-01-01T00:00:00.000Z",
    .evClose,
    .evConnect none none "5a6b7c8d" none,
    .evTimeout ]

/-- Reachable state with a populated message log but no client handle. -/
def cexState : MqttState :=
  cexTrace.foldl step initState

/-- C1 counterexample: at the reachable state `cexState` — reached by
connect, connect ack, an inbound message, a transport close, a second
connect, and the 15-second timeout firing — `disconnect()` does not empty
the message log, because the timeout handler already cleared the client
handle and `disconnect` only clears state when the handle exists. -/
theorem disconnect_not_always_clearing :
    Reachable cexState ∧
      ¬ ((disconnect cexState).subscriptions = [] ∧
         (disconnect cexState).messages = [] ∧
         (disconnect cexState).isConnected = false ∧
         (disconnect cexState).isConnecting = false) :=
  ⟨reachable_of_traceOK Reachable.init cexTrace (by decide),
   fun h => absurd (congrArg List.length h.2.1) (by decide)⟩

/-- C1 (amended): for every reachable state, `disconnect()` leaves the
session not-connected and not-connecting with no pending timer; the
subscription set and the message log are guaranteed to be emptied only
when the client handle still exists (when the handle is absent — e.g.
already cleared by the connect timeout — previously accumulated
subscriptions and messages are retained). -/
theorem disconnect_resets {s : MqttState} (h : Reachable s) :
    (disconnect s).isConnected = false ∧ (disconnect s).isConnecting = false ∧
    (disconnect s).timerArmed = false ∧
    (s.clientExists = true →
      (disconnect s).subscriptions = [] ∧ (disconnect s).messages = []) := by
  cases hcl : s.clientExists with
  | false =>
      obtain ⟨h1, h2⟩ := no_client_no_flags h hcl
      simp [disconnect, hcl, h1, h2]
  | true => simp [disconnect, hcl]

/-- Witness for C1's amended theorem at the established sample session,
where the client handle exists and everything is cleared. -/
theorem disconnect_resets_witness :
    (disconnect connectedState).isConnected = false ∧
    (disconnect connectedState).isConnecting = false ∧
    (disconnect connectedState).timerArmed = false ∧
    (connectedState.clientExists = true →
      (disconnect connectedState).subscriptions = [] ∧
      (disconnect connectedState).messages = []) :=
  disconnect_resets (Reachable.next (Reachable.next Reachable.init (by decide)) (by decide))

/-- C4: on a connected session `publish` sends `JSON.stringify` of any
object-typed message — in particular the object with field `a = 1` is
sent as the eight-character text starting with a brace, `"a":1`, brace —
and a string message is sent unchanged; when not connected, `publish` is
ignored with a warning; the default publish options are QoS 0 and
retain=false. -/
theorem publish_serialization (s : MqttState) (topic : String) (m : Json)
    (str : String) (h : s.clientExists = true ∧ s.isConnected = true) :
    (jsTypeof m = "object" →
      publish s topic m {} = .sent topic (jsonStringify m) ⟨0, false⟩) ∧
    publish s topic (Json.str str) {} = .sent topic str ⟨0, false⟩ ∧
    jsonStringify (Json.obj [("a", Json.num 1)]) = "\x7b\"a\":1\x7d" ∧
    (∀ s2 : MqttState, s2.isConnected = false →
      publish s2 topic m {} = .warnedNotConnected) ∧
    resolvePubOptions {} = ⟨0, false⟩ := by
  refine ⟨?_, ?_, rfl, ?_, rfl⟩
  · intro hm
    simp [publish, h.1, h.2, hm, resolvePubOptions]
  · simp [publish, h.1, h.2, jsTypeof, jsString, resolvePubOptions]
  · intro s2 h2
    simp [publish, h2]

/-- Witness for C4 on the established sample session with the object
message having field `a = 1` and the string message `raw`. -/
theorem publish_serialization_witness :
    (jsTypeof (Json.obj [("a", Json.num 1)]) = "object" →
      publish connectedState "gps/data" (Json.obj [("a", Json.num 1)]) {} =
        .sent "gps/data" (jsonStringify (Json.obj [("a", Json.num 1)])) ⟨0, false⟩) ∧
    publish connectedState "gps/data" (Json.str "raw") {} =
      .sent "gps/data" "raw" ⟨0, false⟩ ∧
    jsonStringify (Json.obj [("a", Json.num 1)]) = "\x7b\"a\":1\x7d" ∧
    (∀ s2 : MqttState, s2.isConnected = false →
      publish s2 "gps/data" (Json.obj [("a", Json.num 1)]) {} = .warnedNotConnected) ∧
    resolvePubOptions {} = ⟨0, false⟩ :=
  publish_serialization connectedState "gps/data" (Json.obj [("a", Json.num 1)]) "raw"
    ⟨by decide, by decide⟩

/-- C9: on a connected session, a message that is neither a string nor of
JavaScript object type — a number or a boolean — is sent as
`String(message)`; in particular the number 42 is sent as the text 42.
This is the `String(message)` branch of `publish` that the spec's
serialization rule leaves unaddressed. -/
theorem publish_primitive_stringified (s : MqttState) (topic : String) (m : Json)
    (h : s.clientExists = true ∧ s.isConnected = true)
    (hm1 : jsTypeof m ≠ "object") (_hm2 : jsTypeof m ≠ "string") :
    publish s topic m {} = .sent topic (jsString m) ⟨0, false⟩ ∧
    jsString (Json.num 42) = "42" := by
  constructor
  · simp [publish, h.1, h.2, hm1, resolvePubOptions]
  · rfl

/-- Witness for C9: publishing the number 42 on the established sample
session sends the text 42. -/
theorem publish_primitive_stringified_witness :
    publish connectedState "gps/data" (Json.num 42) {} =
      .sent "gps/data" (jsString (Json.num 42)) ⟨0, false⟩ ∧
    jsString (Json.num 42) = "42" :=
  publish_primitive_stringified connectedState "gps/data" (Json.num 42)
    ⟨by decide, by decide⟩ (by decide) (by decide)

/-- C5: the message handler prepends one record to the front of the log
for every inbound message event: when `JSON.parse` of the decoded payload
succeeds with value `d`, the record is (topic, data = d,
raw = payload, timestamp); when it fails, the record carries the raw
payload text as both `data` and `raw`. -/
theorem message_handler_prepends (s : MqttState) (topic payload now : String) :
    (∀ d : Json, onMessage s topic payload (some d) now =
      { s with messages := ⟨topic, d, payload, now⟩ :: s.messages }) ∧
    onMessage s topic payload none now =
      { s with messages := ⟨topic, Json.str payload, payload, now⟩ :: s.messages } :=
  ⟨fun _ => rfl, rfl⟩

/-- C6: `subscribe` warns and is ignored when not connected; when
connected it issues requests exactly for the topics not already in the
subscription set; the `subscribe` call itself never mutates the set; a
failed acknowledgment adds nothing; and after the acknowledgments of two
subscribe calls issued for the same topic before the first ack, the topic
occurs in the set exactly once. -/
theorem subscribe_spec (s : MqttState) (topics : List String) (o : SubOptions) (t : String) :
    (s.isConnected = false → subscribe s topics o = .warnedNotConnected) ∧
    (s.clientExists = true → s.isConnected = true →
      subscribe s topics o =
        .requested (topics.filter fun x => !s.subscriptions.contains x) (resolveSubQos o)) ∧
    (step s (.evSubscribe topics o)).subscriptions = s.subscriptions ∧
    onSubAck s t false = s ∧
    (s.subscriptions.count t ≤ 1 →
      (onSubAck (onSubAck s t true) t true).subscriptions.count t = 1) := by
  refine ⟨?_, ?_, ?_, rfl, ?_⟩
  · intro h; simp [subscribe, h]
  · intro h1 h2; simp [subscribe, h1, h2]
  · simp only [step]; split <;> rfl
  · intro h
    simp only [onSubAck, if_pos]
    exact count_setAdd _ _ (le_of_eq (count_setAdd _ _ h))

/-- Witness for C6: on the established sample session (empty subscription
set) a subscribe for `gps/location` issues exactly that request; a failed
ack changes nothing; two successful acks leave one entry; and on the
fresh, unconnected session the call is warned and ignored. -/
theorem subscribe_spec_witness :
    subscribe initState ["gps/location"] {} = .warnedNotConnected ∧
    subscribe connectedState ["gps/location"] {} =
      .requested (["gps/location"].filter fun x =>
        !connectedState.subscriptions.contains x) (resolveSubQos {}) ∧
    (step connectedState (.evSubscribe ["gps/location"] {})).subscriptions =
      connectedState.subscriptions ∧
    onSubAck connectedState "gps/location" false = connectedState ∧
    (onSubAck (onSubAck connectedState "gps/location" true)
      "gps/location" true).subscriptions.count "gps/location" = 1 :=
  ⟨(subscribe_spec initState ["gps/location"] {} "gps/location").1 rfl,
   (subscribe_spec connectedState ["gps/location"] {} "gps/location").2.1
     (by decide) (by decide),
   (subscribe_spec connectedState ["gps/location"] {} "gps/location").2.2.1,
   (subscribe_spec connectedState ["gps/location"] {} "gps/location").2.2.2.1,
   (subscribe_spec connectedState ["gps/location"] {} "gps/location").2.2.2.2 (by decide)⟩

/-- C7: `unsubscribe` is silently ignored when not connected; when
connected it issues requests exactly for the topics currently in the
subscription set; a failed acknowledgment leaves the set unchanged; and a
successful acknowledgment removes the topic (`Set.delete`, i.e. erasure
from the duplicate-free set). -/
theorem unsubscribe_spec (s : MqttState) (topics : List String) (t : String) :
    (s.isConnected = false → unsubscribe s topics = .ignoredNotConnected) ∧
    (s.clientExists = true → s.isConnected = true →
      unsubscribe s topics =
        .requested (topics.filter fun x => s.subscriptions.contains x)) ∧
    onUnsubAck s t false = s ∧
    (onUnsubAck s t true).subscriptions = s.subscriptions.erase t ∧
    (s.subscriptions.Nodup → t ∉ (onUnsubAck s t true).subscriptions) := by
  refine ⟨?_, ?_, rfl, rfl, ?_⟩
  · intro h; simp [unsubscribe, h]
  · intro h1 h2; simp [unsubscribe, h1, h2]
  · intro h
    simpa [onUnsubAck] using h.not_mem_erase

/-- Witness for C7 on a session subscribed to `gps/location`: the request
is issued for the subscribed topic, a failed ack keeps it, a successful
ack removes it, and the fresh session ignores the call. -/
theorem unsubscribe_spec_witness :
    unsubscribe initState ["gps/location"] = .ignoredNotConnected ∧
    unsubscribe (onSubAck connectedState "gps/location" true) ["gps/location"] =
      .requested (["gps/location"].filter fun x =>
        (onSubAck connectedState "gps/location" true).subscriptions.contains x) ∧
    onUnsubAck (onSubAck connectedState "gps/location" true) "gps/location" false =
      onSubAck connectedState "gps/location" true ∧
    (onUnsubAck (onSubAck connectedState "gps/location" true) "gps/location"
      true).subscriptions =
      (onSubAck connectedState "gps/location" true).subscriptions.erase "gps/location" ∧
    ((onSubAck connectedState "gps/location" true).subscriptions.Nodup →
      "gps/location" ∉ (onUnsubAck (onSubAck connectedState "gps/location" true)
        "gps/location" true).subscriptions) :=
  ⟨(unsubscribe_spec initState ["gps/location"] "gps/location").1 rfl,
   (unsubscribe_spec (onSubAck connectedState "gps/location" true)
     ["gps/location"] "gps/location").2.1 (by decide) (by decide),
   (unsubscribe_spec (onSubAck connectedState "gps/location" true)
     ["gps/location"] "gps/location").2.2.1,
   (unsubscribe_spec (onSubAck connectedState "gps/location" true)
     ["gps/location"] "gps/location").2.2.2.1,
   (unsubscribe_spec (onSubAck connectedState "gps/location" true)
     ["gps/location"] "gps/location").2.2.2.2⟩

/-- C8: a `connect` call on an idle session stores a supplied non-empty
url and merges supplied options over the previously stored ones, and the
options passed to the client are the stored ones with every unset key
defaulted: generated pseudo-random client id `vue-mqtt-<hex>`,
clean-session true, 1000 ms reconnect period, 10000 ms inner connect
timeout; a caller-supplied client id (and any other supplied key)
overrides the default. -/
theorem connect_merges_and_defaults (s : MqttState) (u : String)
    (o stored : ClientOptions) (randHex : String)
    (hg : s.isConnecting = false ∧ s.isConnected = false) (hu : u ≠ "") :
    (connect s (some u) (some o) randHex none).currentBrokerUrl = u ∧
    (connect s (some u) (some o) randHex none).currentClientOptions =
      mergeOptions s.currentClientOptions o ∧
    (connect s (some u) (some o) randHex none).lastAttempt =
      some (u, resolveOptions randHex (mergeOptions s.currentClientOptions o)) ∧
    (resolveOptions randHex stored).clientId = stored.clientId.getD (genClientId randHex) ∧
    (resolveOptions randHex stored).clean = stored.clean.getD true ∧
    (resolveOptions randHex stored).reconnectPeriod = stored.reconnectPeriod.getD 1000 ∧
    (resolveOptions randHex stored).connectTimeout = stored.connectTimeout.getD (10 * 1000) ∧
    (∀ cid : String, o.clientId = some cid →
      (resolveOptions randHex (mergeOptions stored o)).clientId = cid) := by
  refine ⟨?_, ?_, ?_, rfl, rfl, rfl, rfl, ?_⟩
  · simp [connect, hg.1, hg.2, hu]
  · simp [connect, hg.1, hg.2]
  · simp [connect, hg.1, hg.2, hu]
  · intro cid hcid
    simp [resolveOptions, mergeOptions, hcid, Option.orElse]

/-- Witness for C8: connecting the fresh session to the broker with a
username and a custom client id stores them merged over the defaults, and
the custom client id overrides the generated one. -/
theorem connect_merges_and_defaults_witness :
    (connect initState (some "ws://202.51.82.87:9001")
        (some { username := some "alice", clientId := some "custom" })
        "9e8d7c6b" none).currentBrokerUrl = "ws://202.51.82.87:9001" ∧
    (connect initState (some "ws://202.51.82.87:9001")
        (some { username := some "alice", clientId := some "custom" })
        "9e8d7c6b" none).currentClientOptions =
      mergeOptions initState.currentClientOptions
        { username := some "alice", clientId := some "custom" } ∧
    (connect initState (some "ws://202.51.82.87:9001")
        (some { username := some "alice", clientId := some "custom" })
        "9e8d7c6b" none).lastAttempt =
      some ("ws://202.51.82.87:9001",
        resolveOptions "9e8d7c6b" (mergeOptions initState.currentClientOptions
          { username := some "alice", clientId := some "custom" })) ∧
    (resolveOptions "9e8d7c6b" { connectTimeout := some 5000 }).clientId =
      (Option.getD none (genClientId "9e8d7c6b")) ∧
    (resolveOptions "9e8d7c6b" { connectTimeout := some 5000 }).clean =
      (Option.getD none true) ∧
    (resolveOptions "9e8d7c6b" { connectTimeout := some 5000 }).reconnectPeriod =
      (Option.getD none 1000) ∧
    (resolveOptions "9e8d7c6b" { connectTimeout := some 5000 }).connectTimeout =
      (Option.getD (some 5000) (10 * 1000)) ∧
    (∀ cid : String,
      ClientOptions.clientId { username := some "alice", clientId := some "custom" } = some cid →
      (resolveOptions "9e8d7c6b" (mergeOptions { connectTimeout := some 5000 }
        { username := some "alice", clientId := some "custom" })).clientId = cid) :=
  connect_merges_and_defaults initState "ws://202.51.82.87:9001"
    { username := some "alice", clientId := some "custom" }
    { connectTimeout := some 5000 } "9e8d7c6b" ⟨rfl, rfl⟩ (by decide)

end GpsMqtt
